import Mathlib

/-!
Shallow embedding of `src/examples/nextjs/api/step-v4/[step].rs` from the
`vercel-rust` repository: a serverless workflow step-dispatch handler.

The handler's collaborators (`construct_nodes_graph`, `execute_single_node`,
`execute_nodes_group`, `get_workflow_state`, `set_workflow_node_state`,
`store_execution_data_v2`) are external to the source file; they are
abstracted as an `Env` record of oracle functions, and the handler's calls to
the persistence collaborators and executors are recorded in a `Trace` so that
properties such as "the executor is never invoked" are stated precisely.
-/

namespace VercelStep

/-- JSON values (`serde_json::Value`). Numbers are modelled as integers,
which covers every number the handler itself constructs. -/
inductive Json where
  | null
  | bool (b : Bool)
  | num (n : Int)
  | str (s : String)
  | arr (elems : List Json)
  | obj (fields : List (String × Json))

/-- `Value::get(key)`: field lookup on an object, `None` otherwise. -/
def Json.get (v : Json) (key : String) : Option Json :=
  match v with
  | .obj fields => fields.lookup key
  | _ => none

/-- `Value::as_array`. -/
def Json.as_array : Json → Option (List Json)
  | .arr xs => some xs
  | _ => none

/-- `Value::as_str`. -/
def Json.as_str : Json → Option String
  | .str s => some s
  | _ => none

/-- Escaping of one character inside a JSON string literal. -/
def escapeChar (c : Char) : String :=
  if c = '"' then "\\\""
  else if c = '\\' then "\\\\"
  else if c = '\n' then "\\n"
  else if c = '\t' then "\\t"
  else if c = '\r' then "\\r"
  else String.singleton c

/-- Escaping of a JSON string literal's contents. -/
def escapeString (s : String) : String :=
  String.join (s.toList.map escapeChar)

/-- Decimal rendering of an integer. -/
def intStr (n : Int) : String :=
  if n < 0 then "-" ++ Nat.repr n.natAbs else Nat.repr n.natAbs

mutual

/-- Compact JSON serialization (`serde_json::to_string` /
`Value::to_string`); object fields render in stored order. -/
def Json.toString : Json → String
  | .null => "null"
  | .bool true => "true"
  | .bool false => "false"
  | .num n => intStr n
  | .str s => "\"" ++ escapeString s ++ "\""
  | .arr xs => "[" ++ String.intercalate "," (jsonElems xs) ++ "]"
  | .obj fs => "\x7b" ++ String.intercalate "," (jsonFields fs) ++ "\x7d"

/-- Serialized forms of an array's elements. -/
def jsonElems : List Json → List String
  | [] => []
  | x :: xs => x.toString :: jsonElems xs

/-- Serialized forms of an object's fields. -/
def jsonFields : List (String × Json) → List String
  | [] => []
  | (k, v) :: fs => ("\"" ++ escapeString k ++ "\":" ++ v.toString) :: jsonFields fs

end

/-- HTTP methods (`http::Method`). -/
inductive Method where
  | GET
  | POST
  | OPTIONS
  | PUT
  | DELETE
  | PATCH
  | HEAD
deriving DecidableEq

/-- An incoming request: the method, the URI path, and the result of
`req.json()` (either the parsed body or a deserialization error). -/
structure Request where
  method : Method
  path : String
  body : Except String Json

/-- Characters strictly after the last `/` seen so far. -/
def lastSegAux : List Char → List Char → List Char
  | [], acc => acc
  | c :: rest, acc =>
    if c = '/' then lastSegAux rest [] else lastSegAux rest (acc ++ [c])

/-- Final segment of a path: `path.rsplit('/').next()`; `rsplit` always
yields at least one (possibly empty) piece. -/
def lastPathSegment (p : String) : String :=
  String.mk (lastSegAux p.toList [])

/-- One more than `usize::MAX` on a 64-bit target. -/
def USIZE_LIMIT : Nat := 2 ^ 64

/-- `str::parse::<usize>()`: an optional leading `+`, then one or more
ASCII digits, rejecting values that overflow `usize`. -/
def parseUsize (s : String) : Option Nat :=
  let cs := s.toList
  let t := match cs with
    | '+' :: rest => rest
    | _ => cs
  if !t.isEmpty && t.all Char.isDigit then
    let n := t.foldl (fun acc c => acc * 10 + (c.toNat - 48)) 0
    if n < USIZE_LIMIT then some n else none
  else none

/-- Lines 35–41: step index from the final path segment, defaulting to 0
when parsing fails (`.and_then(|s| s.parse::<usize>().ok()).unwrap_or(0)`). -/
def stepIndexOf (path : String) : Nat :=
  (parseUsize (lastPathSegment path)).getD 0

/-- A graph entry, observed by the handler only through `is_group()` and
`id()`. -/
structure NodeOrGroup where
  is_group : Bool
  id : Option String

/-- An executor's output: a terminal JSON value, or a stream of chunk
results (`stream.next()` yields `Result<Value, _>` items). -/
inductive ExecResult where
  | value (v : Json)
  | stream (chunks : List (Except String Json))

/-- The external collaborators, plus the two `chrono::Utc::now()` readings
used when synthesizing a completion. -/
structure Env where
  get_workflow_state : Json → Except String (List Json)
  construct_nodes_graph : List Json → List Json → List NodeOrGroup
  execute_single_node : NodeOrGroup → Json → Json → Except String ExecResult
  execute_nodes_group : NodeOrGroup → Json → Json → Except String ExecResult
  time_millis : Nat
  time_secs : Int

/-- Record of the handler's collaborator invocations. -/
structure Trace where
  graph_calls : Nat := 0
  single_calls : Nat := 0
  group_calls : Nat := 0
  node_state_writes : List (Json × String × Json) := []
  store_calls : List (List Json × String × String) := []

/-- Response body: empty, a JSON text body, or the sequence of strings
written to an SSE response (in write order). -/
inductive RespBody where
  | empty
  | text (s : String)
  | sse (writes : List String)

/-- An HTTP response: status, headers in insertion order, body. -/
structure HttpResponse where
  status : Nat
  headers : List (String × String)
  body : RespBody

/-- Handler outcome: a response, a propagated `Err` (the `?` operator), or
a panic (the unguarded `&graph[step_index]` index). -/
inductive Outcome where
  | ok (resp : HttpResponse)
  | fail (msg : String)
  | panic

/-- The three CORS headers installed on the response builder (lines 29–32)
and on the preflight response (lines 22–24). -/
def corsHeaders : List (String × String) :=
  [("Access-Control-Allow-Origin", "*"),
   ("Access-Control-Allow-Methods", "POST, OPTIONS"),
   ("Access-Control-Allow-Headers", "Content-Type")]

/-- Extra headers of the SSE response (lines 91–93). -/
def sseExtraHeaders : List (String × String) :=
  [("Content-Type", "text/event-stream"),
   ("Cache-Control", "no-cache, no-transform"),
   ("Connection", "keep-alive")]

/-- Line 103: the SSE `data:` frame written for one chunk. -/
def mkDataFrame (c : Json) : String :=
  "data: " ++ c.toString ++ "\n\n"

/-- Lines 132 and 150: the hardcoded next-step path. -/
def nextPath (nextStep : Nat) : String :=
  "/api/step-v3/" ++ Nat.repr nextStep

/-- Line 134: the SSE redirect frame. -/
def mkRedirectFrame (nextStep : Nat) : String :=
  "event: redirect\ndata: " ++ nextPath nextStep ++ "\n\n"

/-- `format!("cmpl-\x7b:x\x7d", millis)`: lowercase hex. -/
def hexStr (n : Nat) : String :=
  String.mk (Nat.toDigits 16 n)

/-- Lines 112–122: the synthesized chat-completion envelope; `content` is
`token_buf.join("")`. -/
def mkUnified (millis : Nat) (secs : Int) (content : String) : Json :=
  .obj [("id", .str ("cmpl-" ++ hexStr millis)),
        ("object", .str "chat.completion"),
        ("created", .num secs),
        ("model", .str "stream-reconstructed"),
        ("choices", .arr [.obj [
            ("index", .num 0),
            ("message", .obj [("role", .str "assistant"), ("content", .str content)]),
            ("finish_reason", .str "stop")]])]

/-- Lines 99–108: the stream consumption loop. Each chunk is written as a
`data:` frame the moment it arrives; a chunk with a string `token` field
appends the token to the buffer; a chunk error aborts via `?`.
Returns (writes, token buffer, error if any). -/
def streamLoop : List (Except String Json) → List String → List String →
    List String × List String × Option String
  | [], writes, toks => (writes, toks, none)
  | .error e :: _, writes, toks => (writes, toks, some e)
  | .ok c :: rest, writes, toks =>
    let writes' := writes ++ [mkDataFrame c]
    let toks' := match (c.get "token").bind Json.as_str with
      | some t => toks ++ [t]
      | none => toks
    streamLoop rest writes' toks'

/-- The tokens a chunk list contributes to the buffer, in order. -/
def tokensOf (cs : List Json) : List String :=
  cs.filterMap (fun c => (c.get "token").bind Json.as_str)

/-- Lines 78–84: dispatch on `is_group()`. -/
def dispatchExec (env : Env) (n : NodeOrGroup) (trigger webhook : Json) :
    Except String ExecResult :=
  if n.is_group then env.execute_nodes_group n trigger webhook
  else env.execute_single_node n trigger webhook

/-- Trace after the single executor dispatch. -/
def dispatchTrace (n : NodeOrGroup) : Trace :=
  { graph_calls := 1,
    single_calls := if n.is_group then 0 else 1,
    group_calls := if n.is_group then 1 else 0 }

/-- Lines 87–141: the streaming (SSE) branch, after the loop has run. -/
def streamFinish (env : Env) (step_index glen : Nat) (node : NodeOrGroup)
    (workflow_id user_id : String) (trigger : Json)
    (prior : List Json) (writes toks : List String) (tr : Trace) :
    Outcome × Trace :=
  let results :=
    if toks.isEmpty then prior
    else prior ++ [mkUnified env.time_millis env.time_secs (String.join toks)]
  let tr1 :=
    if toks.isEmpty then tr
    else match node.id with
      | some nid =>
        { tr with node_state_writes :=
            tr.node_state_writes ++
              [(trigger, nid,
                Json.obj [("data", mkUnified env.time_millis env.time_secs (String.join toks))])] }
      | none => tr
  if step_index + 1 < glen then
    (Outcome.ok { status := 200, headers := corsHeaders ++ sseExtraHeaders,
                  body := RespBody.sse (writes ++ [mkRedirectFrame (step_index + 1)]) },
     tr1)
  else
    (Outcome.ok { status := 200, headers := corsHeaders ++ sseExtraHeaders,
                  body := RespBody.sse writes },
     { tr1 with store_calls := tr1.store_calls ++ [(results, workflow_id, user_id)] })

/-- Lines 143–161: the non-streaming branch. -/
def nonStreamFinish (step_index glen : Nat) (node : NodeOrGroup)
    (workflow_id user_id : String) (trigger : Json)
    (prior : List Json) (v : Json) (tr : Trace) : Outcome × Trace :=
  let results := prior ++ [v]
  let tr1 :=
    match node.id with
    | some nid =>
      { tr with node_state_writes :=
          tr.node_state_writes ++ [(trigger, nid, Json.obj [("data", v)])] }
    | none => tr
  if step_index + 1 < glen then
    (Outcome.ok { status := 307,
                  headers := corsHeaders ++ [("Location", nextPath (step_index + 1))],
                  body := RespBody.text (Json.toString (Json.obj [("data", Json.arr results)])) },
     tr1)
  else
    (Outcome.ok { status := 200, headers := corsHeaders,
                  body := RespBody.text (Json.toString (Json.obj [("data", Json.arr results)])) },
     { tr1 with store_calls := tr1.store_calls ++ [(results, workflow_id, user_id)] })

/-- Lines 77–161: execute the resolved node-or-group and shape the
response. -/
def executePhase (env : Env) (step_index glen : Nat) (node : NodeOrGroup)
    (workflow_id user_id : String) (trigger webhook : Json)
    (prior : List Json) : Outcome × Trace :=
  let tr0 := dispatchTrace node
  match dispatchExec env node trigger webhook with
  | .error e => (Outcome.fail e, tr0)
  | .ok (ExecResult.value v) =>
    nonStreamFinish step_index glen node workflow_id user_id trigger prior v tr0
  | .ok (ExecResult.stream chunks) =>
    match streamLoop chunks [] [] with
    | (_, _, some e) => (Outcome.fail e, tr0)
    | (writes, toks, none) =>
      streamFinish env step_index glen node workflow_id user_id trigger prior writes toks tr0

/-- Lines 50–54: `edges`, an array defaulting to empty. -/
def edgesOf (body : Json) : List Json :=
  ((body.get "edges").bind Json.as_array).getD []

/-- Lines 55–59: `workflow_id`, a string defaulting to empty. -/
def workflowIdOf (body : Json) : String :=
  ((body.get "workflow_id").bind Json.as_str).getD ""

/-- Lines 60–64: `user_id`, a string defaulting to empty. -/
def userIdOf (body : Json) : String :=
  ((body.get "user_id").bind Json.as_str).getD ""

/-- Line 65: `trigger_output`, defaulting to `\x7b\x7d`. -/
def triggerOf (body : Json) : Json :=
  (body.get "trigger_output").getD (Json.obj [])

/-- Line 66: `webhook_body`, defaulting to `\x7b\x7d`. -/
def webhookOf (body : Json) : Json :=
  (body.get "webhook_body").getD (Json.obj [])

/-- Lines 69–71: prior results from workflow state; a read failure is
swallowed into an empty list (`unwrap_or_else(|_| Vec::new())`). -/
def priorOf (env : Env) (body : Json) : List Json :=
  match env.get_workflow_state (triggerOf body) with
  | .ok rs => rs
  | .error _ => []

/-- Line 74: the constructed graph. -/
def graphOf (env : Env) (body : Json) (nodes : List Json) : List NodeOrGroup :=
  env.construct_nodes_graph nodes (edgesOf body)

/-- Lines 50–161: field extraction from the parsed body, prior-state load
with swallowed failure, graph construction, the unguarded index
(`&graph[step_index]`, line 75), and the execution phase. -/
def handlerCore (env : Env) (step_index : Nat) (body : Json)
    (nodes : List Json) : Outcome × Trace :=
  let graph := graphOf env body nodes
  if h : step_index < graph.length then
    executePhase env step_index graph.length (graph.get ⟨step_index, h⟩)
      (workflowIdOf body) (userIdOf body) (triggerOf body) (webhookOf body)
      (priorOf env body)
  else
    (Outcome.panic, { graph_calls := 1 })

/-- Lines 44–49: body deserialization (`?`) and the required `nodes`
array (`.get("nodes").and_then(Value::as_array)`), then the core. -/
def handlerParsed (env : Env) (step_index : Nat)
    (body : Except String Json) : Outcome × Trace :=
  match body with
  | .error e => (Outcome.fail e, {})
  | .ok b =>
    match (b.get "nodes").bind Json.as_array with
    | none => (Outcome.fail "nodes array is missing", {})
    | some nodes => handlerCore env step_index b nodes

/-- Lines 17–161: the whole handler. OPTIONS short-circuits to the
preflight response; every other method proceeds to dispatch. -/
def handler (env : Env) (req : Request) : Outcome × Trace :=
  if req.method = Method.OPTIONS then
    (Outcome.ok { status := 204, headers := corsHeaders, body := RespBody.empty }, {})
  else
    handlerParsed env (stepIndexOf req.path) req.body

/-- A header list carries the three permissive CORS headers. -/
def hasCors (hs : List (String × String)) : Prop :=
  ("Access-Control-Allow-Origin", "*") ∈ hs ∧
  ("Access-Control-Allow-Methods", "POST, OPTIONS") ∈ hs ∧
  ("Access-Control-Allow-Headers", "Content-Type") ∈ hs

/-- An outcome carries the CORS headers: only an actual response can; a
propagated `Err` or a panic carries no handler-built headers at all. -/
def outcomeCors : Outcome → Prop
  | .ok r => hasCors r.headers
  | .fail _ => False
  | .panic => False

/-- Header lookup on a response inside an outcome. -/
def outcomeHeader (o : Outcome) (k : String) : Option String :=
  match o with
  | .ok r => r.headers.lookup k
  | _ => none

/-- Status of a response inside an outcome. -/
def outcomeStatus : Outcome → Option Nat
  | .ok r => some r.status
  | _ => none

/-! Concrete fixtures used by witnesses and counterexamples. -/

/-- A plain single node without an identifier. -/
def singleNode : NodeOrGroup := { is_group := false, id := none }

/-- A single node exposing the identifier `nodeA`. -/
def idNode : NodeOrGroup := { is_group := false, id := some "nodeA" }

/-- Environment: empty prior state, one `singleNode` graph entry per
element of `nodes`, single-node executor returning `\x7b"x":1\x7d`. -/
def baseEnv : Env :=
  { get_workflow_state := fun _ => Except.ok [],
    construct_nodes_graph := fun nodes _ => nodes.map (fun _ => singleNode),
    execute_single_node := fun _ _ _ =>
      Except.ok (ExecResult.value (Json.obj [("x", Json.num 1)])),
    execute_nodes_group := fun _ _ _ => Except.ok (ExecResult.value Json.null),
    time_millis := 0,
    time_secs := 0 }

/-- Environment whose single-node executor streams the chunks
`\x7b"token":"Hel"\x7d` and `\x7b"token":"lo"\x7d`, on `idNode` entries. -/
def streamEnv : Env :=
  { baseEnv with
    construct_nodes_graph := fun nodes _ => nodes.map (fun _ => idNode),
    execute_single_node := fun _ _ _ =>
      Except.ok (ExecResult.stream
        [Except.ok (Json.obj [("token", Json.str "Hel")]),
         Except.ok (Json.obj [("token", Json.str "lo")])]) }

/-- `baseEnv` with a failing workflow-state read. -/
def errStateEnv : Env :=
  { baseEnv with get_workflow_state := fun _ => Except.error "db down" }

/-- Body with a two-element `nodes` array. -/
def bodyTwoNodes : Json := Json.obj [("nodes", Json.arr [Json.null, Json.null])]

/-- Body with a one-element `nodes` array. -/
def bodyOneNode : Json := Json.obj [("nodes", Json.arr [Json.null])]

/-- Body without a `nodes` field. -/
def bodyNoNodes : Json := Json.obj [("workflow_id", Json.str "w")]

/-- Body whose `nodes` field is present but is a string, not an array. -/
def bodyBadNodes : Json := Json.obj [("nodes", Json.str "oops")]

/-- POST to the v4 route at step 0, two nodes. -/
def reqV4Step0 : Request :=
  { method := Method.POST, path := "/api/step-v4/0", body := Except.ok bodyTwoNodes }

/-- POST at step 0, one node (so step 0 is final). -/
def reqOneNode : Request :=
  { method := Method.POST, path := "/api/step-v3/0", body := Except.ok bodyOneNode }

/-- GET (neither POST nor OPTIONS) at step 0, one node. -/
def reqGetDispatch : Request :=
  { method := Method.GET, path := "/api/step-v3/0", body := Except.ok bodyOneNode }

/-- POST whose body lacks `nodes`. -/
def reqNoNodes : Request :=
  { method := Method.POST, path := "/api/step-v3/0", body := Except.ok bodyNoNodes }

/-- POST whose body has a non-array `nodes`. -/
def reqBadNodes : Request :=
  { method := Method.POST, path := "/api/step-v3/0", body := Except.ok bodyBadNodes }

/-- POST with an unparseable trailing path segment. -/
def reqAbc : Request :=
  { method := Method.POST, path := "/api/step-v3/abc", body := Except.ok bodyOneNode }

/-- POST at step 5 with only one node: out-of-range index. -/
def reqStep5 : Request :=
  { method := Method.POST, path := "/api/step-v3/5", body := Except.ok bodyOneNode }

/-- POST at step 1 with two nodes (final step of a two-step graph). -/
def reqStep1 : Request :=
  { method := Method.POST, path := "/api/step-v3/1", body := Except.ok bodyTwoNodes }

/-- The response produced by `baseEnv` on a one-node final step. -/
def respFinal : HttpResponse :=
  { status := 200, headers := corsHeaders,
    body := RespBody.text "\x7b\"data\":[\x7b\"x\":1\x7d]\x7d" }

/-- The trace produced by `baseEnv` on a one-node final step. -/
def trFinal : Trace :=
  { graph_calls := 1, single_calls := 1,
    store_calls := [([Json.obj [("x", Json.num 1)]], "", "")] }

/-! Shared lemmas characterizing the handler's phases. -/

/-- `handlerParsed` on a successfully deserialized body reduces to the
`nodes` check. -/
theorem handlerParsed_ok (env : Env) (i : Nat) (b : Json) :
    handlerParsed env i (Except.ok b) =
      match (b.get "nodes").bind Json.as_array with
      | none => (Outcome.fail "nodes array is missing", {})
      | some nodes => handlerCore env i b nodes := rfl

/-- A non-OPTIONS request with a body containing a `nodes` array reaches
the core. -/
theorem handler_to_core (env : Env) (req : Request) (b : Json)
    (nodes : List Json)
    (hm : req.method ≠ Method.OPTIONS) (hb : req.body = Except.ok b)
    (hn : (b.get "nodes").bind Json.as_array = some nodes) :
    handler env req = handlerCore env (stepIndexOf req.path) b nodes := by
  unfold handler
  rw [if_neg hm, hb, handlerParsed_ok, hn]

/-- An in-range step index reaches the execution phase on the resolved
graph entry. -/
theorem core_to_exec (env : Env) (i : Nat) (b : Json) (nodes : List Json)
    (node : NodeOrGroup)
    (hlt : i < (graphOf env b nodes).length)
    (hnode : (graphOf env b nodes).get? i = some node) :
    handlerCore env i b nodes =
      executePhase env i (graphOf env b nodes).length node
        (workflowIdOf b) (userIdOf b) (triggerOf b) (webhookOf b)
        (priorOf env b) := by
  simp only [handlerCore]
  rw [dif_pos hlt]
  have hg : (graphOf env b nodes).get ⟨i, hlt⟩ = node := by
    rw [List.get?_eq_get hlt] at hnode
    exact Option.some.inj hnode
  rw [hg]

/-- A terminal-value execution result reaches the non-streaming branch. -/
theorem executePhase_value (env : Env) (i glen : Nat) (node : NodeOrGroup)
    (wid uid : String) (trig web : Json) (prior : List Json) (v : Json)
    (hex : dispatchExec env node trig web = Except.ok (ExecResult.value v)) :
    executePhase env i glen node wid uid trig web prior =
      nonStreamFinish i glen node wid uid trig prior v (dispatchTrace node) := by
  unfold executePhase
  rw [hex]

/-- The stream loop on an all-successful chunk list writes one `data:`
frame per chunk, in order, and buffers exactly the string `token` fields,
in order. -/
theorem streamLoop_map_ok (cs : List Json) (ws ts : List String) :
    streamLoop (cs.map Except.ok) ws ts =
      (ws ++ cs.map mkDataFrame, ts ++ tokensOf cs, none) := by
  induction cs generalizing ws ts with
  | nil => simp [streamLoop, tokensOf]
  | cons c rest ih =>
    simp only [List.map_cons, streamLoop]
    rw [ih]
    cases htok : (c.get "token").bind Json.as_str with
    | none => simp [tokensOf, List.filterMap_cons, htok, List.append_assoc]
    | some t => simp [tokensOf, List.filterMap_cons, htok, List.append_assoc]

/-- An all-successful streaming execution result reaches the streaming
branch with the loop's frames and token buffer. -/
theorem executePhase_stream_ok (env : Env) (i glen : Nat)
    (node : NodeOrGroup) (wid uid : String) (trig web : Json)
    (prior : List Json) (cs : List Json)
    (hex : dispatchExec env node trig web =
      Except.ok (ExecResult.stream (cs.map Except.ok))) :
    executePhase env i glen node wid uid trig web prior =
      streamFinish env i glen node wid uid trig prior
        (cs.map mkDataFrame) (tokensOf cs) (dispatchTrace node) := by
  unfold executePhase
  rw [hex]
  have h := streamLoop_map_ok cs ([] : List String) ([] : List String)
  simp only [List.nil_append] at h
  simp [h]

/-- The CORS header triple is present in the builder's header list. -/
theorem hasCors_corsHeaders : hasCors corsHeaders := by
  refine ⟨?_, ?_, ?_⟩ <;> simp [corsHeaders]

/-- The CORS header triple survives any appended headers. -/
theorem hasCors_append (l : List (String × String)) :
    hasCors (corsHeaders ++ l) := by
  refine ⟨?_, ?_, ?_⟩ <;> exact List.mem_append_left _ (by simp [corsHeaders])

/-- C1 counterexample: a valid non-final request arriving at the
dispatcher's own route `/api/step-v4/0` (the file lives under
`api/step-v4/`) is answered 307, but the `Location` header is the
hardcoded `/api/step-v3/1`, not the same-version `/api/step-v4/1` the
claim requires, so following it does not re-enter this dispatcher. -/
theorem C1_counterexample :
    outcomeStatus (handler baseEnv reqV4Step0).1 = some 307 ∧
    outcomeHeader (handler baseEnv reqV4Step0).1 "Location" = some "/api/step-v3/1" ∧
    some "/api/step-v3/1" ≠ some "/api/step-v4/1" :=
  ⟨rfl, rfl, by decide⟩

/-- C1 (amended): for every valid request at a non-final step whose
execution result is not a stream, the response has status 307, its
`Location` header is the hardcoded `/api/step-v3/\x7bstep+1\x7d`
independent of the version in the arrival path, and the JSON body's
`data` array has length equal to the prior accumulated-results length
plus 1. -/
theorem C1_redirect_hardcoded (env : Env) (req : Request) (b : Json)
    (nodes : List Json) (node : NodeOrGroup) (v : Json)
    (hm : req.method ≠ Method.OPTIONS)
    (hb : req.body = Except.ok b)
    (hn : (b.get "nodes").bind Json.as_array = some nodes)
    (hnode : (graphOf env b nodes).get? (stepIndexOf req.path) = some node)
    (hnf : stepIndexOf req.path + 1 < (graphOf env b nodes).length)
    (hex : dispatchExec env node (triggerOf b) (webhookOf b) =
      Except.ok (ExecResult.value v)) :
    (handler env req).1 =
      Outcome.ok
        { status := 307,
          headers := corsHeaders ++ [("Location", nextPath (stepIndexOf req.path + 1))],
          body := RespBody.text (Json.toString
            (Json.obj [("data", Json.arr (priorOf env b ++ [v]))])) } ∧
    (priorOf env b ++ [v]).length = (priorOf env b).length + 1 := by
  have hlt : stepIndexOf req.path < (graphOf env b nodes).length :=
    Nat.lt_of_succ_lt hnf
  rw [handler_to_core env req b nodes hm hb hn,
      core_to_exec env (stepIndexOf req.path) b nodes node hlt hnode,
      executePhase_value env (stepIndexOf req.path) _ node _ _ _ _ _ v hex]
  simp only [nonStreamFinish]
  rw [if_pos hnf]
  exact ⟨rfl, by simp⟩

/-- C1 witness: the amended statement at `baseEnv` and `reqV4Step0`. -/
theorem C1_redirect_hardcoded_witness :
    (handler baseEnv reqV4Step0).1 =
      Outcome.ok
        { status := 307,
          headers := corsHeaders ++
            [("Location", nextPath (stepIndexOf reqV4Step0.path + 1))],
          body := RespBody.text (Json.toString
            (Json.obj [("data", Json.arr (priorOf baseEnv bodyTwoNodes ++
              [Json.obj [("x", Json.num 1)]]))])) } ∧
    (priorOf baseEnv bodyTwoNodes ++ [Json.obj [("x", Json.num 1)]]).length =
      (priorOf baseEnv bodyTwoNodes).length + 1 := by
  exact C1_redirect_hardcoded baseEnv reqV4Step0 bodyTwoNodes
    [Json.null, Json.null] singleNode (Json.obj [("x", Json.num 1)])
    (by decide) rfl rfl rfl (by decide) rfl

/-- C2 counterexample: a GET request (neither POST nor OPTIONS) with a
valid body is fully processed as a dispatch request — the single-node
executor is invoked and a dispatch response is returned — refuting the
claim that only POST requests are dispatched. -/
theorem C2_counterexample :
    (handler baseEnv reqGetDispatch).2.single_calls = 1 ∧
    (handler baseEnv reqGetDispatch).1 = Outcome.ok respFinal :=
  ⟨rfl, rfl⟩

/-- C2 (amended): the handler never inspects the method beyond the
OPTIONS special case; every non-OPTIONS method, POST or not, is processed
as a dispatch request with identical results. -/
theorem C2_method_ignored (env : Env) (req : Request) (m : Method)
    (hm : req.method ≠ Method.OPTIONS) (hm2 : m ≠ Method.OPTIONS) :
    handler env { req with method := m } = handler env req := by
  unfold handler
  have hc : ({ req with method := m } : Request).method ≠ Method.OPTIONS := hm2
  rw [if_neg hc, if_neg hm]

/-- C2 witness: the amended statement for GET versus POST. -/
theorem C2_method_ignored_witness :
    handler baseEnv { reqOneNode with method := Method.GET } =
      handler baseEnv reqOneNode :=
  C2_method_ignored baseEnv reqOneNode Method.GET (by decide) (by decide)

/-- C4: a resolvable request whose step index is at or beyond the graph
length reaches the unguarded `&graph[step_index]` and faults (after the
one graph-construction call) instead of returning a clean error
response. -/
theorem C4_oob_panics (env : Env) (req : Request) (b : Json)
    (nodes : List Json)
    (hm : req.method ≠ Method.OPTIONS)
    (hb : req.body = Except.ok b)
    (hn : (b.get "nodes").bind Json.as_array = some nodes)
    (hge : (graphOf env b nodes).length ≤ stepIndexOf req.path) :
    handler env req = (Outcome.panic, { graph_calls := 1 }) := by
  rw [handler_to_core env req b nodes hm hb hn]
  simp only [handlerCore]
  rw [dif_neg (Nat.not_lt.mpr hge)]

/-- C4 witness: step 5 against a one-entry graph panics. -/
theorem C4_oob_panics_witness :
    handler baseEnv reqStep5 = (Outcome.panic, { graph_calls := 1 }) :=
  C4_oob_panics baseEnv reqStep5 bodyOneNode [Json.null]
    (by decide) rfl rfl (by decide)

/-- C6: a body without a `nodes` field fails the whole request with the
missing-field error, with zero graph constructions and zero executor
invocations of either kind. -/
theorem C6_missing_nodes_no_exec (env : Env) (req : Request) (b : Json)
    (hm : req.method ≠ Method.OPTIONS)
    (hb : req.body = Except.ok b)
    (hn : b.get "nodes" = none) :
    handler env req =
      (Outcome.fail "nodes array is missing",
       { graph_calls := 0, single_calls := 0, group_calls := 0,
         node_state_writes := [], store_calls := [] }) := by
  unfold handler
  rw [if_neg hm, hb, handlerParsed_ok]
  have h2 : (b.get "nodes").bind Json.as_array = none := by rw [hn]; rfl
  rw [h2]

/-- C6 witness: the statement at a body lacking `nodes`. -/
theorem C6_missing_nodes_witness :
    handler baseEnv reqNoNodes =
      (Outcome.fail "nodes array is missing",
       { graph_calls := 0, single_calls := 0, group_calls := 0,
         node_state_writes := [], store_calls := [] }) :=
  C6_missing_nodes_no_exec baseEnv reqNoNodes bodyNoNodes (by decide) rfl rfl

/-- C7: when the final path segment does not parse as a `usize`, the step
index silently defaults to 0: the handler behaves identically to the same
request with path `/api/step-v3/0`, and no error is surfaced. -/
theorem C7_unparseable_defaults_zero (env : Env) (req : Request)
    (h : parseUsize (lastPathSegment req.path) = none) :
    handler env req = handler env { req with path := "/api/step-v3/0" } := by
  unfold handler
  have h0 : stepIndexOf req.path = 0 := by
    unfold stepIndexOf
    rw [h]
    rfl
  rw [h0]
  rfl

/-- C7 witness: the statement at the path `/api/step-v3/abc`. -/
theorem C7_unparseable_witness :
    handler baseEnv reqAbc = handler baseEnv { reqAbc with path := "/api/step-v3/0" } :=
  C7_unparseable_defaults_zero baseEnv reqAbc rfl

/-- C8: a valid request at the final step whose execution result is a
terminal value is answered 200 with body `data` equal to the prior
results loaded from workflow state followed by this step's result, in
execution order. -/
theorem C8_final_200 (env : Env) (req : Request) (b : Json)
    (nodes : List Json) (node : NodeOrGroup) (v : Json)
    (hm : req.method ≠ Method.OPTIONS)
    (hb : req.body = Except.ok b)
    (hn : (b.get "nodes").bind Json.as_array = some nodes)
    (hnode : (graphOf env b nodes).get? (stepIndexOf req.path) = some node)
    (hlt : stepIndexOf req.path < (graphOf env b nodes).length)
    (hfin : ¬ stepIndexOf req.path + 1 < (graphOf env b nodes).length)
    (hex : dispatchExec env node (triggerOf b) (webhookOf b) =
      Except.ok (ExecResult.value v)) :
    (handler env req).1 =
      Outcome.ok
        { status := 200, headers := corsHeaders,
          body := RespBody.text (Json.toString
            (Json.obj [("data", Json.arr (priorOf env b ++ [v]))])) } := by
  rw [handler_to_core env req b nodes hm hb hn,
      core_to_exec env (stepIndexOf req.path) b nodes node hlt hnode,
      executePhase_value env (stepIndexOf req.path) _ node _ _ _ _ _ v hex]
  simp only [nonStreamFinish]
  rw [if_neg hfin]

/-- C8 witness: the statement at the final step of a two-node graph. -/
theorem C8_final_200_witness :
    (handler baseEnv reqStep1).1 =
      Outcome.ok
        { status := 200, headers := corsHeaders,
          body := RespBody.text (Json.toString
            (Json.obj [("data", Json.arr (priorOf baseEnv bodyTwoNodes ++
              [Json.obj [("x", Json.num 1)]]))])) } := by
  exact C8_final_200 baseEnv reqStep1 bodyTwoNodes [Json.null, Json.null]
    singleNode (Json.obj [("x", Json.num 1)])
    (by decide) rfl rfl rfl (by decide) (by decide) rfl

/-- C10: a body whose `nodes` field is present but not an array fails
with exactly the same missing-field error as an absent `nodes`, before
any graph construction or execution. -/
theorem C10_nonarray_nodes (env : Env) (req : Request) (b v : Json)
    (hm : req.method ≠ Method.OPTIONS)
    (hb : req.body = Except.ok b)
    (hv : b.get "nodes" = some v)
    (hna : v.as_array = none) :
    handler env req =
      (Outcome.fail "nodes array is missing",
       { graph_calls := 0, single_calls := 0, group_calls := 0,
         node_state_writes := [], store_calls := [] }) := by
  unfold handler
  rw [if_neg hm, hb, handlerParsed_ok]
  have h2 : (b.get "nodes").bind Json.as_array = none := by
    rw [hv]
    exact hna
  rw [h2]

/-- C10 witness: the statement at a body whose `nodes` is a string. -/
theorem C10_nonarray_nodes_witness :
    handler baseEnv reqBadNodes =
      (Outcome.fail "nodes array is missing",
       { graph_calls := 0, single_calls := 0, group_calls := 0,
         node_state_writes := [], store_calls := [] }) :=
  C10_nonarray_nodes baseEnv reqBadNodes bodyBadNodes (Json.str "oops")
    (by decide) rfl rfl rfl

/-- C3 counterexample: the missing-`nodes` request — one of the error
cases the claim explicitly covers — yields a propagated `Err`, not a
response, so no handler-built response carries the CORS headers for it. -/
theorem C3_counterexample :
    (handler baseEnv reqNoNodes).1 = Outcome.fail "nodes array is missing" ∧
    ¬ outcomeCors (handler baseEnv reqNoNodes).1 :=
  ⟨rfl, fun h => h⟩

/-- C3 (amended): every response the handler itself constructs for a
non-OPTIONS request — streaming, redirect, or final — carries the three
permissive CORS headers; error cases return `Err` with no handler-built
headers at all. -/
theorem C3_cors_on_responses (env : Env) (req : Request)
    (resp : HttpResponse) (tr : Trace)
    (hm : req.method ≠ Method.OPTIONS)
    (hok : handler env req = (Outcome.ok resp, tr)) :
    hasCors resp.headers := by
  unfold handler at hok
  rw [if_neg hm] at hok
  unfold handlerParsed at hok
  split at hok
  · simp at hok
  · split at hok
    · simp at hok
    · simp only [handlerCore] at hok
      split at hok
      · simp only [executePhase] at hok
        split at hok
        · simp at hok
        · simp only [nonStreamFinish] at hok
          split at hok
          · simp only [Prod.mk.injEq, Outcome.ok.injEq] at hok
            obtain ⟨h1, -⟩ := hok
            subst h1
            exact hasCors_append _
          · simp only [Prod.mk.injEq, Outcome.ok.injEq] at hok
            obtain ⟨h1, -⟩ := hok
            subst h1
            exact hasCors_corsHeaders
        · split at hok
          · simp at hok
          · simp only [streamFinish] at hok
            split at hok
            · simp only [Prod.mk.injEq, Outcome.ok.injEq] at hok
              obtain ⟨h1, -⟩ := hok
              subst h1
              exact hasCors_append _
            · simp only [Prod.mk.injEq, Outcome.ok.injEq] at hok
              obtain ⟨h1, -⟩ := hok
              subst h1
              exact hasCors_append _
      · simp at hok

/-- C3 witness: the amended statement at a final-step response. -/
theorem C3_cors_on_responses_witness : hasCors respFinal.headers :=
  C3_cors_on_responses baseEnv reqOneNode respFinal trFinal (by decide) rfl

/-- C5: in the streaming branch, one SSE `data:` frame per successful
chunk is written in production order (followed only by the redirect frame
on non-final steps); the string `token` fields are buffered in order, and
a non-empty buffer yields a single synthesized chat completion whose
`message.content` is their concatenation, appended to the accumulated
results (visible in the node-state write and, at the final step, the
stored full results). -/
theorem C5_streaming (env : Env) (req : Request) (b : Json)
    (nodes : List Json) (node : NodeOrGroup) (cs : List Json)
    (hm : req.method ≠ Method.OPTIONS)
    (hb : req.body = Except.ok b)
    (hn : (b.get "nodes").bind Json.as_array = some nodes)
    (hnode : (graphOf env b nodes).get? (stepIndexOf req.path) = some node)
    (hlt : stepIndexOf req.path < (graphOf env b nodes).length)
    (hex : dispatchExec env node (triggerOf b) (webhookOf b) =
      Except.ok (ExecResult.stream (cs.map Except.ok))) :
    (handler env req).1 =
      Outcome.ok
        { status := 200,
          headers := corsHeaders ++ sseExtraHeaders,
          body := RespBody.sse (cs.map mkDataFrame ++
            (if stepIndexOf req.path + 1 < (graphOf env b nodes).length
             then [mkRedirectFrame (stepIndexOf req.path + 1)] else [])) } ∧
    (handler env req).2.node_state_writes =
      (if (tokensOf cs).isEmpty then ([] : List (Json × String × Json))
       else (node.id.map (fun nid =>
         (triggerOf b, nid, Json.obj [("data",
            mkUnified env.time_millis env.time_secs
              (String.join (tokensOf cs)))]))).toList) ∧
    ((tokensOf cs).isEmpty = false →
     ¬ stepIndexOf req.path + 1 < (graphOf env b nodes).length →
     (handler env req).2.store_calls =
       [(priorOf env b ++
           [mkUnified env.time_millis env.time_secs (String.join (tokensOf cs))],
         workflowIdOf b, userIdOf b)]) := by
  rw [handler_to_core env req b nodes hm hb hn,
      core_to_exec env (stepIndexOf req.path) b nodes node hlt hnode,
      executePhase_stream_ok env (stepIndexOf req.path) _ node _ _ _ _ _ cs hex]
  simp only [streamFinish]
  refine ⟨?_, ?_, ?_⟩
  · by_cases hfin : stepIndexOf req.path + 1 < (graphOf env b nodes).length
    · rw [if_pos hfin, if_pos hfin]
    · rw [if_neg hfin, if_neg hfin]
      simp
  · by_cases hfin : stepIndexOf req.path + 1 < (graphOf env b nodes).length <;>
      cases htoks : (tokensOf cs).isEmpty <;>
        cases hid : node.id <;>
          simp [hfin, htoks, hid, dispatchTrace]
  · intro htoks hfin
    rw [if_neg hfin]
    cases hid : node.id <;> simp [htoks, hid, dispatchTrace]

/-- C5 witness: the mocked stream of chunks with tokens `Hel`, `lo` on a
final step — two frames in order and a synthesized completion with
content `Hello`. -/
theorem C5_streaming_witness :
    (handler streamEnv reqOneNode).1 =
      Outcome.ok
        { status := 200,
          headers := corsHeaders ++ sseExtraHeaders,
          body := RespBody.sse
            ([Json.obj [("token", Json.str "Hel")],
              Json.obj [("token", Json.str "lo")]].map mkDataFrame ++
             (if stepIndexOf reqOneNode.path + 1 <
                  (graphOf streamEnv bodyOneNode [Json.null]).length
              then [mkRedirectFrame (stepIndexOf reqOneNode.path + 1)] else [])) } ∧
    (handler streamEnv reqOneNode).2.node_state_writes =
      (if (tokensOf [Json.obj [("token", Json.str "Hel")],
                     Json.obj [("token", Json.str "lo")]]).isEmpty
       then ([] : List (Json × String × Json))
       else (idNode.id.map (fun nid =>
         (triggerOf bodyOneNode, nid, Json.obj [("data",
            mkUnified streamEnv.time_millis streamEnv.time_secs
              (String.join (tokensOf [Json.obj [("token", Json.str "Hel")],
                                      Json.obj [("token", Json.str "lo")]])))]))).toList) ∧
    ((tokensOf [Json.obj [("token", Json.str "Hel")],
                Json.obj [("token", Json.str "lo")]]).isEmpty = false →
     ¬ stepIndexOf reqOneNode.path + 1 <
         (graphOf streamEnv bodyOneNode [Json.null]).length →
     (handler streamEnv reqOneNode).2.store_calls =
       [(priorOf streamEnv bodyOneNode ++
           [mkUnified streamEnv.time_millis streamEnv.time_secs
              (String.join (tokensOf [Json.obj [("token", Json.str "Hel")],
                                      Json.obj [("token", Json.str "lo")]]))],
         workflowIdOf bodyOneNode, userIdOf bodyOneNode)]) := by
  exact C5_streaming streamEnv reqOneNode bodyOneNode [Json.null] idNode
    [Json.obj [("token", Json.str "Hel")], Json.obj [("token", Json.str "lo")]]
    (by decide) rfl rfl rfl (by decide) rfl

/-- C9: when the workflow-state read fails, the failure is swallowed: the
handler behaves exactly as it would with an empty prior-results sequence,
so a state-read failure never produces an error response of its own. -/
theorem C9_state_read_swallowed (env : Env) (req : Request) (e : String)
    (h : ∀ t, env.get_workflow_state t = Except.error e) :
    handler env req =
      handler { env with get_workflow_state := fun _ => Except.ok [] } req := by
  unfold handler
  by_cases hm : req.method = Method.OPTIONS
  · rw [if_pos hm, if_pos hm]
  · rw [if_neg hm, if_neg hm]
    cases hb : req.body with
    | error e2 => rfl
    | ok b =>
      rw [handlerParsed_ok, handlerParsed_ok]
      cases hn : (b.get "nodes").bind Json.as_array with
      | none => rfl
      | some nodes =>
        simp only [handlerCore]
        have hp1 : priorOf env b = [] := by
          unfold priorOf
          rw [h]
        have hp2 : priorOf { env with get_workflow_state := fun _ => Except.ok [] } b = [] := rfl
        rw [hp1, hp2]
        rfl

/-- C9 witness: a failing state read behaves like an empty prior list. -/
theorem C9_state_read_swallowed_witness :
    handler errStateEnv reqOneNode =
      handler { errStateEnv with get_workflow_state := fun _ => Except.ok [] } reqOneNode :=
  C9_state_read_swallowed errStateEnv reqOneNode "db down" (fun _ => rfl)

end VercelStep
